import Mathlib

/-!
Verification of the air-quality dashboard (`dashboard/dashboard.py`).

The script is shallowly embedded: a dataframe is a `List Row`, the timestamp
column `tanggal` is an integer counting hours since an epoch (the dataset is
hourly), numeric columns are rationals, and the pandas calls used by the
script (`read_csv` column preparation, boolean-mask filtering, `groupby.agg`,
`sample`) become the corresponding pure list operations.
-/

namespace Dashboard

/-- A raw CSV record before `load_data` adds coordinates: the renamed columns
`stasiun` (from `station`) and `tanggal` (from `datetime`, already parsed to a
timestamp) plus the pollutant and meteorological columns. -/
structure RawRow where
  station : String
  datetime : Int
  pm25 : Rat
  pm10 : Rat
  no2 : Rat
  so2 : Rat
  co : Rat
  o3 : Rat
  temp : Rat
  pres : Rat
  dewp : Rat
  wspm : Rat
deriving Repr, DecidableEq

/-- A prepared row as produced by `load_data`: the raw columns plus the
`latitude` and `longitude` columns added from the station coordinate table. -/
structure Row where
  stasiun : String
  tanggal : Int
  pm25 : Rat
  pm10 : Rat
  no2 : Rat
  so2 : Rat
  co : Rat
  o3 : Rat
  temp : Rat
  pres : Rat
  dewp : Rat
  wspm : Rat
  latitude : Rat
  longitude : Rat
deriving Repr, DecidableEq

/-- The static coordinate table `coords` of `load_data`
(dashboard.py lines 34-47): twelve stations with fixed latitude/longitude. -/
def coords : List (String × Rat × Rat) :=
  [ ("Aotizhongxin", (25.982070730427132, 117.45514627560887)),
    ("Changping", (40.220773648721526, 116.22458346928182)),
    ("Dingling", (40.29608173026575, 116.22351026646444)),
    ("Dongsi", (39.93205741673973, 116.43419736174938)),
    ("Guanyuan", (32.44985723335085, 105.87975278857984)),
    ("Gucheng", (26.86786447702828, 100.27761232290194)),
    ("Huairou", (40.30923966919258, 116.66964440378989)),
    ("Nongzhanguan", (39.93562032913985, 116.46753727846819)),
    ("Shunyi", (40.15491661940465, 116.54192610220052)),
    ("Tiantan", (39.89078817042267, 116.39886221016597)),
    ("Wanliu", (39.99950871850554, 116.25689305717239)),
    ("Wanshouxigong", (39.909282001378656, 116.26337498325312)) ]

/-- Dictionary lookup `coords[x]`: `some` of the coordinate pair when the
station is a key of the table, `none` when the lookup would raise `KeyError`. -/
def coordsLookup (s : String) : Option (Rat × Rat) :=
  (coords.find? (fun p => p.1 == s)).map (fun p => p.2)

/-- One row of `load_data`: copy the columns and add
`latitude = coords[stasiun][0]`, `longitude = coords[stasiun][1]`
(dashboard.py lines 48-49); `none` models the `KeyError` on an unknown
station name. -/
def loadRow (r : RawRow) : Option Row :=
  match coordsLookup r.station with
  | none => none
  | some c =>
      some { stasiun := r.station, tanggal := r.datetime,
             pm25 := r.pm25, pm10 := r.pm10, no2 := r.no2, so2 := r.so2,
             co := r.co, o3 := r.o3, temp := r.temp, pres := r.pres,
             dewp := r.dewp, wspm := r.wspm,
             latitude := c.1, longitude := c.2 }

/-- `load_data` (dashboard.py lines 29-50): rename/parse is reflected in the
`RawRow` fields; the function applies the coordinate lookup to every row and
fails (models the `KeyError` of `coords[x]`) when any station is not a key
of `coords`. -/
def load_data : List RawRow → Option (List Row)
  | [] => some []
  | r :: rest =>
      match loadRow r, load_data rest with
      | some row, some out => some (row :: out)
      | _, _ => none

/-- `station_data_dict[s]` (dashboard.py line 55): the group of `s` under
`data.groupby('stasiun')`, i.e. the rows of `data` whose station is `s`,
in their original order. -/
def station_data_dict (data : List Row) (s : String) : List Row :=
  data.filter (fun r => r.stasiun == s)

/-- `pd.to_datetime` applied to a sidebar `date_input` value: the date `d`
(counted in days) becomes the midnight timestamp of that day, at the hour
granularity of the embedding. -/
def to_datetime (d : Int) : Int := 24 * d

/-- The date-range mask of dashboard.py lines 92-101: keep a row when
`start <= tanggal <= stop`, both comparisons inclusive. -/
def dateMask (start stop : Int) (r : Row) : Bool :=
  decide (start ≤ r.tanggal) && decide (r.tanggal ≤ stop)

/-- `filtered_data` (dashboard.py lines 92-95): the selected station's group,
further restricted to the inclusive timestamp interval
`[to_datetime tanggal_mulai, to_datetime tanggal_akhir]`.
The `.copy()` is modelled separately (store model below). -/
def filtered_data (data : List Row) (sel : String) (mulai akhir : Int) :
    List Row :=
  (station_data_dict data sel).filter
    (dateMask (to_datetime mulai) (to_datetime akhir))

/-- `date_filtered` (dashboard.py lines 98-101): the full dataset restricted
to the same inclusive timestamp interval. -/
def date_filtered (data : List Row) (mulai akhir : Int) : List Row :=
  data.filter (dateMask (to_datetime mulai) (to_datetime akhir))

lemma mem_filtered_data (data : List Row) (sel : String) (mulai akhir : Int)
    (r : Row) :
    r ∈ filtered_data data sel mulai akhir ↔
      r ∈ data ∧ r.stasiun = sel ∧
        to_datetime mulai ≤ r.tanggal ∧ r.tanggal ≤ to_datetime akhir := by
  simp only [filtered_data, station_data_dict, dateMask, List.mem_filter,
    Bool.and_eq_true, decide_eq_true_eq, beq_iff_eq]
  tauto

lemma mem_date_filtered (data : List Row) (mulai akhir : Int) (r : Row) :
    r ∈ date_filtered data mulai akhir ↔
      r ∈ data ∧
        to_datetime mulai ≤ r.tanggal ∧ r.tanggal ≤ to_datetime akhir := by
  simp [date_filtered, dateMask, List.mem_filter, and_assoc]

/-- C1: `filtered_data` keeps exactly the rows of the full dataset whose
station is the selected one and whose timestamp lies in the inclusive
interval between the two converted endpoint dates, and `date_filtered`
keeps exactly the rows in that inclusive interval: both as a row-level
membership characterisation and as equality with a single filter of the
full dataset by the conjoined predicate. -/
theorem C1_filtered_data_exact (data : List Row) (sel : String)
    (mulai akhir : Int) :
    (∀ r : Row,
      r ∈ filtered_data data sel mulai akhir ↔
        r ∈ data ∧ r.stasiun = sel ∧
          to_datetime mulai ≤ r.tanggal ∧ r.tanggal ≤ to_datetime akhir) ∧
    filtered_data data sel mulai akhir =
      data.filter (fun r => r.stasiun == sel &&
        dateMask (to_datetime mulai) (to_datetime akhir) r) ∧
    (∀ r : Row,
      r ∈ date_filtered data mulai akhir ↔
        r ∈ data ∧
          to_datetime mulai ≤ r.tanggal ∧ r.tanggal ≤ to_datetime akhir) := by
  refine ⟨?_, ?_, ?_⟩
  · exact mem_filtered_data data sel mulai akhir
  · simp only [filtered_data, station_data_dict, List.filter_filter]
    exact List.filter_congr (fun r _ => Bool.and_comm _ _)
  · exact mem_date_filtered data mulai akhir

/-- Arithmetic mean of a list of rationals (the `mean` aggregation of
`groupby.agg`); division by zero yields `0` for the empty list, a case the
aggregations below never reach since every group key comes from a row. -/
def listMean (xs : List Rat) : Rat := xs.sum / (xs.length : Rat)

/-- The distinct station names occurring in a dataframe, each once
(the group keys of `groupby('stasiun')`; the embedding keeps them in
first-occurrence order and does not model pandas' sorting of group keys,
which no claim mentions). -/
def stationsOf (df : List Row) : List String :=
  (df.map Row.stasiun).dedup

/-- One output row of `aggregate_station`. -/
structure StationAgg where
  stasiun : String
  pm25 : Rat
  latitude : Rat
  longitude : Rat
deriving Repr, DecidableEq

/-- The row `aggregate_station` produces for one group key `s`:
mean of `PM2.5`, first `latitude` and first `longitude` of the group. -/
def stationAggRow (df : List Row) (s : String) : StationAgg :=
  let g := df.filter (fun r => r.stasiun == s)
  { stasiun := s,
    pm25 := listMean (g.map Row.pm25),
    latitude := (g.map Row.latitude).headI,
    longitude := (g.map Row.longitude).headI }

/-- `aggregate_station` (dashboard.py lines 61-67):
`groupby('stasiun').agg(PM2.5 mean, latitude first, longitude first)`,
one row per distinct station of the input. -/
def aggregate_station (df : List Row) : List StationAgg :=
  (stationsOf df).map (stationAggRow df)

/-- The distinct `(stasiun, tanggal)` pairs occurring in a dataframe
(the group keys of `groupby(['stasiun', 'tanggal'])`). -/
def stationDateKeys (df : List Row) : List (String × Int) :=
  (df.map (fun r => (r.stasiun, r.tanggal))).dedup

/-- One output row of `aggregate_daily`. -/
structure DailyAgg where
  stasiun : String
  tanggal : Int
  pm25 : Rat
  pm10 : Rat
deriving Repr, DecidableEq

/-- The row `aggregate_daily` produces for one group key: means of `PM2.5`
and `PM10` over the rows sharing that exact `(stasiun, tanggal)` pair. -/
def dailyAggRow (df : List Row) (k : String × Int) : DailyAgg :=
  let g := df.filter (fun r => r.stasiun == k.1 && r.tanggal == k.2)
  { stasiun := k.1, tanggal := k.2,
    pm25 := listMean (g.map Row.pm25),
    pm10 := listMean (g.map Row.pm10) }

/-- `aggregate_daily` (dashboard.py lines 70-75):
`groupby(['stasiun', 'tanggal']).agg(PM2.5 mean, PM10 mean)` — the key is
the full timestamp column, not a calendar day. -/
def aggregate_daily (df : List Row) : List DailyAgg :=
  (stationDateKeys df).map (dailyAggRow df)

/-- Calendar day of a timestamp at the embedding's hour granularity. -/
def dayOfTimestamp (t : Int) : Int := t / 24

/-- The per-calendar-day grouping that the doc string of `aggregate_daily`
("rata-rata harian", daily average) promises but the code does not perform:
group keys are `(stasiun, day)` with the timestamp truncated to its day. -/
def aggregate_daily_byday (df : List Row) : List DailyAgg :=
  ((df.map (fun r => (r.stasiun, dayOfTimestamp r.tanggal))).dedup).map
    (fun k =>
      let g := df.filter
        (fun r => r.stasiun == k.1 && dayOfTimestamp r.tanggal == k.2)
      { stasiun := k.1, tanggal := k.2,
        pm25 := listMean (g.map Row.pm25),
        pm10 := listMean (g.map Row.pm10) })

/-- A helper row for concrete examples: station `s`, timestamp `t`,
`PM2.5` value `p`, every other column zero. -/
def mkRow (s : String) (t : Int) (p : Rat) : Row :=
  { stasiun := s, tanggal := t, pm25 := p, pm10 := 0, no2 := 0, so2 := 0,
    co := 0, o3 := 0, temp := 0, pres := 0, dewp := 0, wspm := 0,
    latitude := 0, longitude := 0 }

lemma aggregate_station_keys (df : List Row) :
    (aggregate_station df).map StationAgg.stasiun = stationsOf df := by
  simp only [aggregate_station, List.map_map]
  exact List.map_id _ ▸ List.map_congr_left (fun s _ => rfl)

lemma mem_aggregate_station (df : List Row) (a : StationAgg) :
    a ∈ aggregate_station df ↔
      a.stasiun ∈ stationsOf df ∧ a = stationAggRow df a.stasiun := by
  constructor
  · intro ha
    rcases List.mem_map.mp ha with ⟨s, hs, rfl⟩
    exact ⟨hs, rfl⟩
  · rintro ⟨hs, ha⟩
    exact ha ▸ List.mem_map.mpr ⟨a.stasiun, hs, rfl⟩

lemma station_group_nonempty (df : List Row) (s : String)
    (hs : s ∈ stationsOf df) :
    df.filter (fun r => r.stasiun == s) ≠ [] := by
  rcases List.mem_map.mp (List.mem_dedup.mp hs) with ⟨r, hr, hrs⟩
  intro hnil
  have : r ∈ df.filter (fun r => r.stasiun == s) :=
    List.mem_filter.mpr ⟨hr, by simp [hrs]⟩
  simp [hnil] at this

/-- C3: `aggregate_station` has exactly one output row per distinct station
of the input (its keys are exactly the stations occurring in the input, with
no duplicates); that row's `PM2.5` times the size of the station's group
equals the sum of the group's `PM2.5` values (i.e. it is their arithmetic
mean), and its latitude and longitude are the first latitude and longitude
among the rows of that station. -/
theorem C3_aggregate_station_spec (df : List Row) :
    (((aggregate_station df).map StationAgg.stasiun).Nodup ∧
      ∀ s : String, s ∈ (aggregate_station df).map StationAgg.stasiun ↔
        ∃ r ∈ df, r.stasiun = s) ∧
    ∀ a ∈ aggregate_station df,
      (a.pm25 * ((df.filter (fun r => r.stasiun == a.stasiun)).length : Rat)
          = ((df.filter (fun r => r.stasiun == a.stasiun)).map Row.pm25).sum)
      ∧ ((df.filter (fun r => r.stasiun == a.stasiun)).map
            Row.latitude).head? = some a.latitude
      ∧ ((df.filter (fun r => r.stasiun == a.stasiun)).map
            Row.longitude).head? = some a.longitude := by
  constructor
  · constructor
    · rw [aggregate_station_keys]
      exact List.nodup_dedup _
    · intro s
      rw [aggregate_station_keys]
      simp [stationsOf, List.mem_dedup, List.mem_map, eq_comm]
  · intro a ha
    rcases (mem_aggregate_station df a).mp ha with ⟨hs, hmk⟩
    have hne : df.filter (fun r => r.stasiun == a.stasiun) ≠ [] :=
      station_group_nonempty df a.stasiun hs
    have hlen :
        ((df.filter (fun r => r.stasiun == a.stasiun)).length : Rat) ≠ 0 := by
      simpa [List.length_eq_zero] using hne
    refine ⟨?_, ?_, ?_⟩
    · conv_lhs => rw [hmk]
      simp only [stationAggRow, listMean]
      rw [List.length_map]
      field_simp
    · conv_rhs => rw [hmk]
      simp only [stationAggRow]
      rcases List.exists_mem_of_ne_nil _ hne with ⟨r, _⟩
      cases hg : df.filter (fun r => r.stasiun == a.stasiun) with
      | nil => exact absurd hg hne
      | cons x xs => simp [List.headI]
    · conv_rhs => rw [hmk]
      simp only [stationAggRow]
      cases hg : df.filter (fun r => r.stasiun == a.stasiun) with
      | nil => exact absurd hg hne
      | cons x xs => simp [List.headI]

lemma aggregate_daily_keys (df : List Row) :
    (aggregate_daily df).map (fun a => (a.stasiun, a.tanggal)) =
      stationDateKeys df := by
  simp only [aggregate_daily, List.map_map]
  exact List.map_id _ ▸ List.map_congr_left (fun k _ => rfl)

lemma mem_aggregate_daily (df : List Row) (a : DailyAgg) :
    a ∈ aggregate_daily df ↔
      (a.stasiun, a.tanggal) ∈ stationDateKeys df ∧
        a = dailyAggRow df (a.stasiun, a.tanggal) := by
  constructor
  · intro ha
    rcases List.mem_map.mp ha with ⟨k, hk, rfl⟩
    exact ⟨hk, rfl⟩
  · rintro ⟨hk, ha⟩
    exact ha ▸ List.mem_map.mpr ⟨(a.stasiun, a.tanggal), hk, rfl⟩

lemma stationDate_group_nonempty (df : List Row) (k : String × Int)
    (hk : k ∈ stationDateKeys df) :
    df.filter (fun r => r.stasiun == k.1 && r.tanggal == k.2) ≠ [] := by
  rcases List.mem_map.mp (List.mem_dedup.mp hk) with ⟨r, hr, hrk⟩
  intro hnil
  have : r ∈ df.filter (fun r => r.stasiun == k.1 && r.tanggal == k.2) := by
    refine List.mem_filter.mpr ⟨hr, ?_⟩
    have h1 : r.stasiun = k.1 := congrArg Prod.fst hrk
    have h2 : r.tanggal = k.2 := congrArg Prod.snd hrk
    simp [h1, h2]
  simp [hnil] at this

/-- Two hourly readings of the same station on the same calendar day
(timestamps 0 and 1 both fall on day 0). -/
def hourlyExample : List Row :=
  [mkRow "Aotizhongxin" 0 10, mkRow "Aotizhongxin" 1 30]

/-- C5: `aggregate_daily` groups by the pair (station, full timestamp):
its keys are exactly the distinct `(stasiun, tanggal)` pairs of the input,
each occurring once, and each output row's `PM2.5` and `PM10` are the
arithmetic means over the input rows sharing that exact pair. On the hourly
example — two same-day readings an hour apart — it returns two rows where a
true per-calendar-day grouping returns one, so it is per-hour on hourly
data despite the helper's daily-average description. -/
theorem C5_aggregate_daily_by_exact_timestamp (df : List Row) :
    (((aggregate_daily df).map (fun a => (a.stasiun, a.tanggal))).Nodup ∧
      ∀ k : String × Int,
        k ∈ (aggregate_daily df).map (fun a => (a.stasiun, a.tanggal)) ↔
          ∃ r ∈ df, (r.stasiun, r.tanggal) = k) ∧
    (∀ a ∈ aggregate_daily df,
      a.pm25 * ((df.filter
          (fun r => r.stasiun == a.stasiun && r.tanggal == a.tanggal)).length
            : Rat) =
        ((df.filter
          (fun r => r.stasiun == a.stasiun && r.tanggal == a.tanggal)).map
            Row.pm25).sum ∧
      a.pm10 * ((df.filter
          (fun r => r.stasiun == a.stasiun && r.tanggal == a.tanggal)).length
            : Rat) =
        ((df.filter
          (fun r => r.stasiun == a.stasiun && r.tanggal == a.tanggal)).map
            Row.pm10).sum) ∧
    (dayOfTimestamp 0 = dayOfTimestamp 1 ∧
      (aggregate_daily hourlyExample).length = 2 ∧
      (aggregate_daily_byday hourlyExample).length = 1) := by
  refine ⟨⟨?_, ?_⟩, ?_, ?_, ?_, ?_⟩
  · rw [aggregate_daily_keys]
    exact List.nodup_dedup _
  · intro k
    rw [aggregate_daily_keys]
    simp [stationDateKeys, List.mem_dedup, List.mem_map]
  · intro a ha
    rcases (mem_aggregate_daily df a).mp ha with ⟨hk, hmk⟩
    have hne := stationDate_group_nonempty df (a.stasiun, a.tanggal) hk
    have hlen : ((df.filter
        (fun r => r.stasiun == a.stasiun && r.tanggal == a.tanggal)).length
          : Rat) ≠ 0 := by
      simpa [List.length_eq_zero] using hne
    constructor
    · conv_lhs => rw [hmk]
      simp only [dailyAggRow, listMean]
      rw [List.length_map]
      field_simp
    · conv_lhs => rw [hmk]
      simp only [dailyAggRow, listMean]
      rw [List.length_map]
      field_simp
  · decide
  · decide
  · decide

/-- A helper raw record for concrete examples: station `s`, timestamp `t`,
`PM2.5` value `p`, every other column zero. -/
def mkRaw (s : String) (t : Int) (p : Rat) : RawRow :=
  { station := s, datetime := t, pm25 := p, pm10 := 0, no2 := 0, so2 := 0,
    co := 0, o3 := 0, temp := 0, pres := 0, dewp := 0, wspm := 0 }

lemma loadRow_spec (r : RawRow) (row : Row) (h : loadRow r = some row) :
    row.stasiun = r.station ∧
      coordsLookup row.stasiun = some (row.latitude, row.longitude) := by
  unfold loadRow at h
  cases hc : coordsLookup r.station with
  | none => rw [hc] at h; exact absurd h (by simp)
  | some c =>
      rw [hc] at h
      cases h
      exact ⟨rfl, by rw [hc]⟩

lemma load_data_mem :
    ∀ (raw : List RawRow) (out : List Row), load_data raw = some out →
      ∀ row ∈ out, ∃ r ∈ raw, loadRow r = some row := by
  intro raw
  induction raw with
  | nil =>
      intro out h row hrow
      simp only [load_data, Option.some.injEq] at h
      subst h
      exact absurd hrow (by simp)
  | cons a as ih =>
      intro out h row hrow
      cases ha : loadRow a with
      | none =>
          simp only [load_data, ha] at h
          exact Option.noConfusion h
      | some b =>
          cases has : load_data as with
          | none =>
              simp only [load_data, ha, has] at h
              exact Option.noConfusion h
          | some bs =>
              simp only [load_data, ha, has, Option.some.injEq] at h
              subst h
              rcases List.mem_cons.mp hrow with hb | hbs
              · exact ⟨a, List.mem_cons_self a as, hb ▸ ha⟩
              · rcases ih bs has row hbs with ⟨r, hr, hlr⟩
                exact ⟨r, List.mem_cons_of_mem a hr, hlr⟩

lemma load_data_isSome :
    ∀ raw : List RawRow,
      (load_data raw).isSome ↔ ∀ r ∈ raw, (loadRow r).isSome := by
  intro raw
  induction raw with
  | nil =>
      constructor
      · intro _ r hr
        exact absurd hr (by simp)
      · intro _
        rfl
  | cons a as ih =>
      cases ha : loadRow a with
      | none => simp [load_data, ha]
      | some b =>
          cases has : load_data as with
          | none =>
              rw [has] at ih
              simp [load_data, ha, has, ih.symm]
          | some bs =>
              rw [has] at ih
              simp [load_data, ha, has, ih.symm]

lemma loadRow_isSome (r : RawRow) :
    (loadRow r).isSome ↔ (coordsLookup r.station).isSome := by
  unfold loadRow
  cases coordsLookup r.station <;> simp

lemma coordsLookup_isSome (s : String) :
    (coordsLookup s).isSome ↔ s ∈ coords.map Prod.fst := by
  unfold coordsLookup
  rw [Option.isSome_map']
  rw [List.find?_isSome]
  constructor
  · rintro ⟨p, hp, hps⟩
    exact List.mem_map.mpr ⟨p, hp, by simpa using hps⟩
  · intro h
    rcases List.mem_map.mp h with ⟨p, hp, hps⟩
    exact ⟨p, hp, by simp [hps]⟩

lemma option_eq_some_getD {α : Type} (o : Option α) (d : α)
    (h : o.isSome) : o = some (o.getD d) := by
  cases o with
  | none => exact absurd h (by simp)
  | some a => rfl

/-- C4: the coordinate table has exactly twelve distinct station names, and
whenever `load_data` succeeds, every output row carries exactly the
coordinates the table assigns to its station — so latitude and longitude are
a function of the station alone, and any two rows with the same station
receive identical coordinates. -/
theorem C4_load_data_coords :
    (coords.length = 12 ∧ (coords.map Prod.fst).Nodup) ∧
    ∀ raw out, load_data raw = some out →
      (∀ row ∈ out,
        coordsLookup row.stasiun = some (row.latitude, row.longitude)) ∧
      ∀ r1 ∈ out, ∀ r2 ∈ out, r1.stasiun = r2.stasiun →
        r1.latitude = r2.latitude ∧ r1.longitude = r2.longitude := by
  refine ⟨⟨by decide, by decide⟩, ?_⟩
  intro raw out h
  have hmem : ∀ row ∈ out,
      coordsLookup row.stasiun = some (row.latitude, row.longitude) := by
    intro row hrow
    rcases load_data_mem raw out h row hrow with ⟨r, _, hlr⟩
    exact (loadRow_spec r row hlr).2
  refine ⟨hmem, ?_⟩
  intro r1 h1 r2 h2 hs
  have e1 := hmem r1 h1
  have e2 := hmem r2 h2
  rw [hs, e2] at e1
  have : (r2.latitude, r2.longitude) = (r1.latitude, r1.longitude) :=
    Option.some.inj e1
  exact ⟨(congrArg Prod.fst this).symm, (congrArg Prod.snd this).symm⟩

/-- A concrete raw input whose stations are all known: two readings at
Tiantan and one at Wanliu. -/
def rawExample : List RawRow :=
  [mkRaw "Tiantan" 0 5, mkRaw "Tiantan" 1 7, mkRaw "Wanliu" 2 9]

/-- The concrete prepared dataframe for `rawExample`. -/
def loadedExample : List Row := (load_data rawExample).getD []

/-- Witness for C4: `load_data` succeeds on `rawExample` and the theorem's
conclusion holds there. -/
theorem C4_load_data_coords_witness :
    (∀ row ∈ loadedExample,
      coordsLookup row.stasiun = some (row.latitude, row.longitude)) ∧
    ∀ r1 ∈ loadedExample, ∀ r2 ∈ loadedExample, r1.stasiun = r2.stasiun →
      r1.latitude = r2.latitude ∧ r1.longitude = r2.longitude :=
  C4_load_data_coords.2 rawExample loadedExample
    (option_eq_some_getD _ [] (by decide))

/-- C9: `load_data` succeeds exactly when every station name of the input is
one of the twelve keys of the coordinate table; an input containing any
other station name makes the lookup fail (the `KeyError`), and under the
precondition that all names are known the error branch is unreachable. -/
theorem C9_load_data_unknown_station (raw : List RawRow) :
    (load_data raw).isSome ↔ ∀ r ∈ raw, r.station ∈ coords.map Prod.fst := by
  rw [load_data_isSome]
  constructor
  · intro h r hr
    exact (coordsLookup_isSome r.station).mp ((loadRow_isSome r).mp (h r hr))
  · intro h r hr
    exact (loadRow_isSome r).mpr
      ((coordsLookup_isSome r.station).mpr (h r hr))

/-- `DataFrame.sample(n=1000, random_state=42)` (dashboard.py line 267):
with the default `replace=False` it raises a `ValueError` when `n` exceeds
the number of rows; only that success condition and the result size are
modelled, not the pseudorandom choice of rows. -/
def sampleRows {α : Type} (df : List α) (n : Nat) : Option (List α) :=
  if n ≤ df.length then some (df.take n) else none

/-- The six entries of the Tab 2 visualization selectbox
(dashboard.py lines 216-220). -/
inductive VizOption
  | trenBulanan
  | pm25Met
  | pm10Met
  | pmBothMet
  | metVsOther
  | pairVars
deriving Repr, DecidableEq

/-- Rendering of the Tab 2 option (dashboard.py lines 222-363): only the
pairplot branch can fail, at its 1000-row sample; every other branch draws
total line/scatter plots over the filtered data. -/
def renderTab2 (fd : List Row) : VizOption → Option Unit
  | VizOption.pairVars => (sampleRows fd 1000).map (fun _ => Unit.unit)
  | _ => some Unit.unit

/-- `selected_row` (dashboard.py line 132):
`station_avg[station_avg['stasiun'] == selected_station].iloc[0]`;
`none` models the `IndexError` when the selected station has no row in
`station_avg`. -/
def selected_row (df : List Row) (sel : String) : Option StationAgg :=
  (aggregate_station df).find? (fun a => a.stasiun == sel)

/-- One rerun of the script for a chosen station, date range and Tab 2
option, keeping only the failure points downstream of a successful CSV
read: the map-centering `iloc[0]` on the selected station's group
(line 114), the `selected_row` `iloc[0]` (line 132), and the Tab 2
rendering with its pairplot sample (lines 216-363); all other renderings
are total and are elided. -/
def runDashboard (data : List Row) (sel : String) (mulai akhir : Int)
    (opt : VizOption) : Option Unit :=
  match (station_data_dict data sel).head? with
  | none => none
  | some _ =>
      match selected_row (date_filtered data mulai akhir) sel with
      | none => none
      | some _ => renderTab2 (filtered_data data sel mulai akhir) opt

/-- A dataset with a single reading, at Aotizhongxin, hour 0. -/
def oneRowExample : List Row := [mkRow "Aotizhongxin" 0 10]

/-- C2 counterexample: the selected station and date range yield one row
(so the claim's precondition holds), yet the Pairplot option fails — its
1000-row sample raises on the 1-row filtered dataframe. -/
theorem C2_counterexample_pairplot_sample :
    1 ≤ (filtered_data oneRowExample "Aotizhongxin" 0 0).length ∧
      runDashboard oneRowExample "Aotizhongxin" 0 0 VizOption.pairVars
        = none := by
  constructor
  · decide
  · decide

/-- C2 as amended: with the CSV read succeeding, a run completes for every
visualization option provided the selected station and date range yield at
least one row AND, when the Pairplot option is chosen, at least 1000 rows
(the sample size it draws without replacement). -/
theorem C2_run_succeeds (data : List Row) (sel : String) (mulai akhir : Int)
    (opt : VizOption)
    (h1 : 1 ≤ (filtered_data data sel mulai akhir).length)
    (h2 : opt = VizOption.pairVars →
      1000 ≤ (filtered_data data sel mulai akhir).length) :
    (runDashboard data sel mulai akhir opt).isSome := by
  have hfd : filtered_data data sel mulai akhir ≠ [] := by
    intro h0
    rw [h0] at h1
    exact absurd h1 (by decide)
  obtain ⟨r, hr⟩ := List.exists_mem_of_ne_nil _ hfd
  have hmem := (mem_filtered_data data sel mulai akhir r).mp hr
  have hr_dict : r ∈ station_data_dict data sel :=
    List.mem_of_mem_filter hr
  have hr_date : r ∈ date_filtered data mulai akhir :=
    (mem_date_filtered data mulai akhir r).mpr ⟨hmem.1, hmem.2.2⟩
  have hkey : sel ∈ stationsOf (date_filtered data mulai akhir) :=
    List.mem_dedup.mpr (List.mem_map.mpr ⟨r, hr_date, hmem.2.1⟩)
  have hsel : (selected_row (date_filtered data mulai akhir) sel).isSome := by
    unfold selected_row
    rw [List.find?_isSome]
    refine ⟨stationAggRow (date_filtered data mulai akhir) sel, ?_, ?_⟩
    · exact (mem_aggregate_station _ _).mpr ⟨hkey, rfl⟩
    · simp [stationAggRow]
  have hhead : (station_data_dict data sel).head?.isSome := by
    cases hsd : station_data_dict data sel with
    | nil => rw [hsd] at hr_dict; exact absurd hr_dict (by simp)
    | cons x xs => simp
  have htab2 : (renderTab2 (filtered_data data sel mulai akhir) opt).isSome
      := by
    cases opt with
    | pairVars =>
        have hlen := h2 rfl
        simp only [renderTab2, sampleRows, if_pos hlen]
        simp
    | trenBulanan => simp [renderTab2]
    | pm25Met => simp [renderTab2]
    | pm10Met => simp [renderTab2]
    | pmBothMet => simp [renderTab2]
    | metVsOther => simp [renderTab2]
  unfold runDashboard
  obtain ⟨x, hx⟩ := Option.isSome_iff_exists.mp hhead
  obtain ⟨a, ha⟩ := Option.isSome_iff_exists.mp hsel
  rw [hx, ha]
  exact htab2

/-- Witness for C2's amended theorem: the one-row dataset succeeds for a
non-pairplot option. -/
theorem C2_run_succeeds_witness :
    (runDashboard oneRowExample "Aotizhongxin" 0 0
      VizOption.trenBulanan).isSome :=
  C2_run_succeeds oneRowExample "Aotizhongxin" 0 0 VizOption.trenBulanan
    (by decide) (fun h => VizOption.noConfusion h)

/-- Witness for C3 at the two-row example: the Aotizhongxin output row
satisfies the mean and first-coordinate equations. -/
theorem C3_aggregate_station_spec_witness :
    (stationAggRow hourlyExample "Aotizhongxin").pm25 *
        ((hourlyExample.filter
          (fun r => r.stasiun == "Aotizhongxin")).length : Rat) =
      ((hourlyExample.filter
          (fun r => r.stasiun == "Aotizhongxin")).map Row.pm25).sum ∧
    ((hourlyExample.filter (fun r => r.stasiun == "Aotizhongxin")).map
        Row.latitude).head? =
      some (stationAggRow hourlyExample "Aotizhongxin").latitude ∧
    ((hourlyExample.filter (fun r => r.stasiun == "Aotizhongxin")).map
        Row.longitude).head? =
      some (stationAggRow hourlyExample "Aotizhongxin").longitude :=
  (C3_aggregate_station_spec hourlyExample).2
    (stationAggRow hourlyExample "Aotizhongxin")
    ((mem_aggregate_station hourlyExample _).mpr ⟨by decide, rfl⟩)

/-- Witness for C5 at the two-row example: the output row keyed
(Aotizhongxin, hour 0) satisfies both mean equations. -/
theorem C5_aggregate_daily_spec_witness :
    (dailyAggRow hourlyExample ("Aotizhongxin", 0)).pm25 *
        ((hourlyExample.filter
          (fun r => r.stasiun == "Aotizhongxin" && r.tanggal == 0)).length
            : Rat) =
      ((hourlyExample.filter
          (fun r => r.stasiun == "Aotizhongxin" && r.tanggal == 0)).map
            Row.pm25).sum ∧
    (dailyAggRow hourlyExample ("Aotizhongxin", 0)).pm10 *
        ((hourlyExample.filter
          (fun r => r.stasiun == "Aotizhongxin" && r.tanggal == 0)).length
            : Rat) =
      ((hourlyExample.filter
          (fun r => r.stasiun == "Aotizhongxin" && r.tanggal == 0)).map
            Row.pm10).sum :=
  (C5_aggregate_daily_by_exact_timestamp hourlyExample).2.1
    (dailyAggRow hourlyExample ("Aotizhongxin", 0))
    ((mem_aggregate_daily hourlyExample _).mpr ⟨by decide, rfl⟩)

/-- The chart-drawing calls dashboard.py makes, by kind. -/
inductive ChartKind
  | pie
  | heatmap
  | lineChart
  | scatter
  | bar
  | pairGrid
  | facetLine
  | box
deriving Repr, DecidableEq

/-- One rendering emitted by the script: the folium map or a chart on one
of the four tabs. -/
inductive Render
  | foliumMap
  | chart (tab : Nat) (kind : ChartKind)
deriving Repr, DecidableEq

/-- The tab labels passed to `st.tabs` (dashboard.py line 147). -/
def tabLabels : List String :=
  ["Statistik Stasiun", "Tren & Hubungan", "Perbandingan Antar Stasiun",
   "Distribusi Waktu"]

/-- Every rendering call of dashboard.py, enumerated from the source in
script order: the folium map (line 142); Tab 0's two pies, correlation
heatmap and facet grid of pollutant line trends (lines 152-210); Tab 1's
monthly-trend line charts, PM-trend line charts with meteorology scatter
grids, and the pairplot grid, over all selectbox options (lines 215-363);
Tab 2's daily-trend line chart and per-station bar charts (lines 368-468);
Tab 3's hourly line chart and two bar charts (lines 473-523). -/
def rendersOf : List Render :=
  [ Render.foliumMap,
    Render.chart 0 ChartKind.pie, Render.chart 0 ChartKind.pie,
    Render.chart 0 ChartKind.heatmap, Render.chart 0 ChartKind.facetLine,
    Render.chart 1 ChartKind.lineChart, Render.chart 1 ChartKind.lineChart,
    Render.chart 1 ChartKind.pairGrid,
    Render.chart 1 ChartKind.lineChart, Render.chart 1 ChartKind.scatter,
    Render.chart 1 ChartKind.lineChart, Render.chart 1 ChartKind.scatter,
    Render.chart 1 ChartKind.lineChart, Render.chart 1 ChartKind.scatter,
    Render.chart 1 ChartKind.scatter,
    Render.chart 2 ChartKind.lineChart,
    Render.chart 2 ChartKind.bar, Render.chart 2 ChartKind.bar,
    Render.chart 2 ChartKind.bar, Render.chart 2 ChartKind.bar,
    Render.chart 3 ChartKind.lineChart,
    Render.chart 3 ChartKind.bar, Render.chart 3 ChartKind.bar ]

/-- The kinds of chart dashboard.py draws. -/
def chartKindsRendered : List ChartKind :=
  rendersOf.filterMap (fun r =>
    match r with
    | Render.foliumMap => none
    | Render.chart _ k => some k)

/-- C6 counterexample: no box plot is drawn anywhere in dashboard.py. -/
theorem C6_counterexample_no_box_plot :
    chartKindsRendered.contains ChartKind.box = false := by
  decide

/-- C6 as amended: the dashboard renders a geospatial map plus charts that
include pie charts, heatmaps, pairplots, line trends, bar charts and
scatter plots — but no box plots — across four tabs. -/
theorem C6_renders :
    Render.foliumMap ∈ rendersOf ∧
    ChartKind.pie ∈ chartKindsRendered ∧
    ChartKind.heatmap ∈ chartKindsRendered ∧
    ChartKind.pairGrid ∈ chartKindsRendered ∧
    ChartKind.lineChart ∈ chartKindsRendered ∧
    ChartKind.bar ∈ chartKindsRendered ∧
    ChartKind.scatter ∈ chartKindsRendered ∧
    chartKindsRendered.contains ChartKind.box = false ∧
    tabLabels.length = 4 := by
  decide

/-- The functions dashboard.py defines, each paired with the number of
dataframe-library calls in its body: `load_data` (lines 29-50) makes five
(`read_csv`, `rename`, `to_datetime`, and two column `map`s), while
`aggregate_station` (lines 61-67) and `aggregate_daily` (lines 70-75) each
wrap a single `groupby(...).agg(...).reset_index()` chain. -/
def definedFunctions : List (String × Nat) :=
  [("load_data", 5), ("aggregate_station", 1), ("aggregate_daily", 1)]

/-- The names of the functions dashboard.py defines. -/
def definedFunctionNames : List String := definedFunctions.map Prod.fst

/-- C7 counterexample: no function named `filter_data` is defined anywhere
in dashboard.py (station/date filtering happens in unnamed top-level
statements, lines 92-101). -/
theorem C7_counterexample_no_filter_data :
    definedFunctionNames.contains "filter_data" = false := by
  decide

/-- C7 as amended: the program defines exactly `load_data`,
`aggregate_station` and `aggregate_daily` — no `filter_data`; the two
aggregation helpers each wrap a single dataframe-library call, but
`load_data` makes five. -/
theorem C7_defined_functions :
    definedFunctionNames =
      ["load_data", "aggregate_station", "aggregate_daily"] ∧
    definedFunctionNames.contains "filter_data" = false ∧
    definedFunctions.all
      (fun f => f.1 == "load_data" || f.2 == 1) = true ∧
    (definedFunctions.filter (fun f => f.1 == "load_data")).map Prod.snd
      = [5] := by
  decide

/-- The load/filter/aggregate core shared by the dashboard versions. -/
structure CoreOps where
  load : List RawRow → Option (List Row)
  filterStationDate : List Row → String → Int → Int → List Row
  filterDate : List Row → Int → Int → List Row
  aggStation : List Row → List StationAgg
  aggDaily : List Row → List DailyAgg

/-- The core implemented by dashboard/dashboard.py. -/
def srcCore : CoreOps :=
  { load := load_data,
    filterStationDate := filtered_data,
    filterDate := date_filtered,
    aggStation := aggregate_station,
    aggDaily := aggregate_daily }

/-- Modelled from the spec: one of the six near-duplicate dashboard
versions. Only one copy (dashboard/dashboard.py) is present under src/;
the spec describes the other five as differing only incrementally —
caching decisions, switching the mapping widget, pre-aggregation helpers,
added tabs — so a version is those incidental choices together with its
load/filter/aggregate core. -/
structure DashboardVersion where
  cachesLoad : Bool
  cachesAggregates : Bool
  mapWidget : String
  hasPreAggregationHelpers : Bool
  tabCount : Nat
  core : CoreOps

/-- Modelled from the spec: the six versions of the repository, each
carrying the shared core; the incidental fields record the incremental
copy-paste differences the spec lists. -/
def versions : List DashboardVersion :=
  [ { cachesLoad := false, cachesAggregates := false, mapWidget := "folium",
      hasPreAggregationHelpers := false, tabCount := 3, core := srcCore },
    { cachesLoad := true, cachesAggregates := false, mapWidget := "folium",
      hasPreAggregationHelpers := false, tabCount := 3, core := srcCore },
    { cachesLoad := true, cachesAggregates := false,
      mapWidget := "streamlit_folium", hasPreAggregationHelpers := false,
      tabCount := 3, core := srcCore },
    { cachesLoad := true, cachesAggregates := true,
      mapWidget := "streamlit_folium", hasPreAggregationHelpers := true,
      tabCount := 3, core := srcCore },
    { cachesLoad := true, cachesAggregates := true,
      mapWidget := "streamlit_folium", hasPreAggregationHelpers := true,
      tabCount := 4, core := srcCore },
    { cachesLoad := true, cachesAggregates := true,
      mapWidget := "streamlit_folium", hasPreAggregationHelpers := true,
      tabCount := 4, core := srcCore } ]

/-- C8: there are six versions and all of them carry the identical
load/filter/aggregate core of dashboard/dashboard.py. -/
theorem C8_six_versions_shared_core :
    versions.length = 6 ∧
      versions.map DashboardVersion.core = List.replicate 6 srcCore :=
  ⟨rfl, rfl⟩

/-- A row extended with the derived time columns the Distribusi Waktu tab
may add; a column that has not been assigned yet is `none`. -/
structure XRow where
  base : Row
  hour : Option Int
  day_of_week : Option String
  hari : Option Int
  jenis_hari : Option String
deriving Repr, DecidableEq

/-- A dataframe object in the store model. -/
abbrev Frame := List XRow

/-- A dataframe carrying only the base columns. -/
def plainFrame (df : List Row) : Frame :=
  df.map (fun r => { base := r, hour := none, day_of_week := none,
                     hari := none, jenis_hari := none })

/-- English day names as produced by `dt.day_name()`, indexed by
`dt.dayofweek` (0 = Monday). -/
def dayNames : List String :=
  ["Monday", "Tuesday", "Wednesday", "Thursday", "Friday", "Saturday",
   "Sunday"]

/-- `dt.dayofweek` at the embedding's hour granularity; the epoch hour 0 is
taken to fall on a Monday. -/
def dayOfWeekIndex (t : Int) : Int := (t / 24) % 7

/-- `filtered_data['hour'] = filtered_data['tanggal'].dt.hour`
(dashboard.py line 481). -/
def addHourCol (f : Frame) : Frame :=
  f.map (fun x => { x with hour := some (x.base.tanggal % 24) })

/-- `filtered_data['day_of_week'] = ....dt.day_name()` (line 482). -/
def addDayNameCol (f : Frame) : Frame :=
  f.map (fun x =>
    { x with day_of_week := some (dayNames.getD (dayOfWeekIndex x.base.tanggal).toNat "") })

/-- `filtered_data['hari'] = ....dt.dayofweek` (line 483). -/
def addHariCol (f : Frame) : Frame :=
  f.map (fun x => { x with hari := some (dayOfWeekIndex x.base.tanggal) })

/-- `filtered_data['jenis_hari'] = filtered_data['hari'].apply(...)`
(line 484); reads the `hari` column the previous statement assigned. -/
def addJenisHariCol (f : Frame) : Frame :=
  f.map (fun x =>
    { x with jenis_hari := some (if 5 ≤ x.hari.getD 0 then "Akhir Pekan" else "Hari Kerja") })

/-- The store of live dataframe objects, indexed by allocation order;
`groupby` groups and `.copy()` results are distinct objects. -/
abbrev Store := List Frame

/-- The object at index `i` of the store. -/
def getFrame (store : Store) (i : Nat) : Frame := store.getD i []

/-- In-place column assignment `df[col] = ...` on the object at index `i`:
every other object of the store is untouched. -/
def applyAt (store : Store) (i : Nat) (g : Frame → Frame) : Store :=
  store.set i (g (getFrame store i))

/-- The object layout after dashboard.py lines 52-95: index 0 holds `data`;
indices 1..k hold the `station_data_dict` groups, one per distinct station
in `stationsOf` order (`groupby` materialises each group as its own
object); and — because line 95 ends in `.copy()` — index k+1 holds
`filtered_data` as a freshly allocated object rather than a view of the
group it was sliced from. -/
def storeBeforeTab4 (data : List Row) (sel : String) (mulai akhir : Int) :
    Store :=
  (plainFrame data ::
    (stationsOf data).map (fun st => plainFrame (station_data_dict data st)))
  ++ [plainFrame (filtered_data data sel mulai akhir)]

/-- The store index of the `filtered_data` object. -/
def filteredId (data : List Row) : Nat := (stationsOf data).length + 1

/-- The four in-place column assignments of the Distribusi Waktu tab
(dashboard.py lines 481-484), each applied to the `filtered_data` object. -/
def storeAfterTab4 (data : List Row) (sel : String) (mulai akhir : Int) :
    Store :=
  let fid := filteredId data
  applyAt (applyAt (applyAt (applyAt
    (storeBeforeTab4 data sel mulai akhir)
    fid addHourCol) fid addDayNameCol) fid addHariCol) fid addJenisHariCol

lemma getFrame_applyAt_ne (store : Store) (i j : Nat) (g : Frame → Frame)
    (h : i ≠ j) : getFrame (applyAt store i g) j = getFrame store j := by
  unfold getFrame applyAt
  rw [List.getD_eq_getElem?_getD, List.getD_eq_getElem?_getD,
    List.getElem?_set_ne h]

lemma getFrame_applyAt_self (store : Store) (i : Nat) (g : Frame → Frame)
    (h : i < store.length) :
    getFrame (applyAt store i g) i = g (getFrame store i) := by
  unfold getFrame applyAt
  rw [List.getD_eq_getElem?_getD, List.getElem?_set_self]
  · rfl
  · exact h

lemma length_applyAt (store : Store) (i : Nat) (g : Frame → Frame) :
    (applyAt store i g).length = store.length := by
  unfold applyAt
  exact List.length_set store i _

lemma length_storeBeforeTab4 (data : List Row) (sel : String)
    (mulai akhir : Int) :
    (storeBeforeTab4 data sel mulai akhir).length =
      (stationsOf data).length + 2 := by
  unfold storeBeforeTab4
  rw [List.length_append, List.length_cons, List.length_map]
  rfl

lemma getFrame_storeAfterTab4_ne (data : List Row) (sel : String)
    (mulai akhir : Int) (j : Nat) (h : filteredId data ≠ j) :
    getFrame (storeAfterTab4 data sel mulai akhir) j =
      getFrame (storeBeforeTab4 data sel mulai akhir) j := by
  unfold storeAfterTab4
  rw [getFrame_applyAt_ne _ _ _ _ h, getFrame_applyAt_ne _ _ _ _ h,
    getFrame_applyAt_ne _ _ _ _ h, getFrame_applyAt_ne _ _ _ _ h]

/-- C10: after the Distribusi Waktu tab assigns its four derived columns,
the full dataset `data` (store index 0) and every per-station group of
`station_data_dict` (store indices 1..k) are unchanged — only the
`.copy()`-allocated `filtered_data` object received the columns. -/
theorem C10_tab4_mutates_only_the_copy (data : List Row) (sel : String)
    (mulai akhir : Int) :
    getFrame (storeAfterTab4 data sel mulai akhir) 0 = plainFrame data ∧
    (∀ i, i < (stationsOf data).length →
      getFrame (storeAfterTab4 data sel mulai akhir) (i + 1) =
        plainFrame (station_data_dict data ((stationsOf data).getD i ""))) ∧
    getFrame (storeAfterTab4 data sel mulai akhir) (filteredId data) =
      addJenisHariCol (addHariCol (addDayNameCol (addHourCol
        (plainFrame (filtered_data data sel mulai akhir))))) := by
  have hk : filteredId data = (stationsOf data).length + 1 := rfl
  have hfidlt :
      filteredId data < (storeBeforeTab4 data sel mulai akhir).length := by
    rw [length_storeBeforeTab4, hk]
    omega
  refine ⟨?_, ?_, ?_⟩
  · rw [getFrame_storeAfterTab4_ne data sel mulai akhir 0 (by omega)]
    unfold getFrame storeBeforeTab4
    rfl
  · intro i hi
    rw [getFrame_storeAfterTab4_ne data sel mulai akhir (i + 1) (by omega)]
    unfold getFrame storeBeforeTab4
    rw [List.getD_eq_getElem?_getD, List.getElem?_append,
      if_pos (by rw [List.length_cons, List.length_map]; omega)]
    rw [List.getElem?_cons_succ, List.getElem?_map,
      List.getElem?_eq_getElem hi]
    simp [List.getD_eq_getElem?_getD, List.getElem?_eq_getElem hi]
  · have hbase :
        getFrame (storeBeforeTab4 data sel mulai akhir) (filteredId data) =
          plainFrame (filtered_data data sel mulai akhir) := by
      unfold getFrame storeBeforeTab4
      rw [List.getD_eq_getElem?_getD, List.getElem?_append,
        if_neg (by rw [List.length_cons, List.length_map, hk]; omega)]
      have hidx : filteredId data -
          (plainFrame data :: (stationsOf data).map
            (fun st => plainFrame (station_data_dict data st))).length = 0
          := by
        rw [List.length_cons, List.length_map, hk]
        omega
      rw [hidx]
      rfl
    unfold storeAfterTab4
    rw [getFrame_applyAt_self _ _ _ (by
      rw [length_applyAt, length_applyAt, length_applyAt]; exact hfidlt)]
    rw [getFrame_applyAt_self _ _ _ (by
      rw [length_applyAt, length_applyAt]; exact hfidlt)]
    rw [getFrame_applyAt_self _ _ _ (by rw [length_applyAt]; exact hfidlt)]
    rw [getFrame_applyAt_self _ _ _ hfidlt]
    rw [hbase]

/-- Witness for C10 at the one-row dataset: the `data` object and the single
station group are unchanged after the tab's writes. -/
theorem C10_tab4_mutates_only_the_copy_witness :
    getFrame (storeAfterTab4 oneRowExample "Aotizhongxin" 0 0) 0 =
        plainFrame oneRowExample ∧
    getFrame (storeAfterTab4 oneRowExample "Aotizhongxin" 0 0) 1 =
        plainFrame (station_data_dict oneRowExample "Aotizhongxin") :=
  ⟨(C10_tab4_mutates_only_the_copy oneRowExample "Aotizhongxin" 0 0).1,
   by
    have h := (C10_tab4_mutates_only_the_copy oneRowExample
      "Aotizhongxin" 0 0).2.1 0 (by decide)
    simpa using h⟩

end Dashboard
